import Mathlib

/-!
A verification development for the AI-Copyright-Checker repository
(`src/app.py` and `src/youtube_analyzer_crew.py`).

The pure structure of the program — the agents, tasks and crew built in
`youtube_analyzer_crew.py`, the module-level credential check, the widget
configuration and the control flow of `main` in `app.py`, and the file
polling loop of `transcribe_video_with_gemini` — is translated directly
from the Python sources.  The execution semantics of `Crew.kickoff`
(provided by the third-party crewai library, not by the repository's own
files) is modelled from the specification's run contract and marked as
such where it is defined.
-/

namespace ACC

/-- Naive substring search over character lists: `substrB needle hay` is
`true` exactly when `needle` occurs contiguously inside `hay`. -/
def substrB (needle : List Char) : List Char → Bool
  | [] => needle.isEmpty
  | c :: rest => needle.isPrefixOf (c :: rest) || substrB needle rest

/-- String-level wrapper for `substrB`: does `needle` occur inside `hay`? -/
def strContains (hay needle : String) : Bool :=
  substrB needle.data hay.data

theorem substrB_self_append (needle suf : List Char) :
    substrB needle (needle ++ suf) = true := by
  cases needle with
  | nil => cases suf <;> simp [substrB]
  | cons c cs =>
      simp only [List.cons_append, substrB, Bool.or_eq_true,
        List.isPrefixOf_iff_prefix]
      exact Or.inl (List.prefix_append _ _)

theorem substrB_append (needle pre suf : List Char) :
    substrB needle (pre ++ needle ++ suf) = true := by
  induction pre with
  | nil => simpa using substrB_self_append needle suf
  | cons c p ih =>
      simp only [List.cons_append, substrB, Bool.or_eq_true]
      exact Or.inr ih

theorem strContains_parts (hay pre needle suf : String)
    (h : hay.data = pre.data ++ needle.data ++ suf.data) :
    strContains hay needle = true := by
  simp only [strContains, h]
  exact substrB_append needle.data pre.data suf.data

/-! ## Data model of `youtube_analyzer_crew.py` -/

/-- The crewai process enum as used by the source (`Process.sequential`). -/
inductive CrewProcess where
  | sequential
  | hierarchical
deriving DecidableEq, Repr

/-- An agent as constructed in `youtube_analyzer_crew.py`: role, goal and
backstory strings, the delegation flag, whether the agent was handed the
Serper search tool, and the model name of the LLM it is bound to. -/
structure CrewAgent where
  role : String
  goal : String
  backstory : String
  allow_delegation : Bool
  hasSearchTool : Bool
  llm : String
deriving DecidableEq, Repr

/-- Model name given to `ChatGoogleGenerativeAI` at module level. -/
def gemini_llm : String := "gemini-2.5-flash-preview-09-2025"

/-- The Guideline Expert agent (`guideline_expert` in the source); it is the
only agent holding the search tool (`tools=[search_tool]`). -/
def guideline_expert : CrewAgent :=
  { role := "YouTube Policy Expert for Cryptocurrency",
    goal := "Provide the most critical YouTube community guidelines\n  that crypto channels must follow. Focus on spam, deceptive practices,\n  scams, and harmful financial content.",
    backstory := "You are a world-class policy analyst who has memorized\n  all of YouTube's community guidelines. You have a special focus\n  on how these rules are applied to cryptocurrency and financial content.\n  You know all the red flags, from \"exaggerated promises\" and \"get rich quick\"\n  language to \"cryptophishing\" and linking to unregulated exchanges.",
    allow_delegation := false,
    hasSearchTool := true,
    llm := gemini_llm }

/-- The Video Compliance agent (`video_analyzer` in the source); no tools. -/
def video_analyzer : CrewAgent :=
  { role := "Video Compliance Analyzer",
    goal := "Analyze a given video transcript against a set of YouTube policies.\n  Identify specific lines or phrases that could be flagged as violations.\n  Provide a detailed report with the problematic text, the policy it\n  might violate, and a risk level (Low, Medium, High).",
    backstory := "You are a meticulous compliance officer. You take a video\n  transcript and a list of rules, and you cross-reference them with extreme\n  attention to detail. You don't make assumptions; you quote the evidence\n  directly from the transcript and cite the specific rule that might\n  be at risk.",
    allow_delegation := false,
    hasSearchTool := false,
    llm := gemini_llm }

/-- A crewai task as constructed in the source.  `context` holds the
positions, in the crew's task list, of the task objects that the Python
code passes in the `context=[...]` argument. -/
structure CrewTask where
  description : String
  expected_output : String
  agent : CrewAgent
  context : List Nat
deriving DecidableEq, Repr

/-- Text of the research task's f-string description before the
`{video_language}` substitution point. -/
def researchDescPre : String := "\n      1. Find the most up-to-date YouTube community guidelines related\n         to cryptocurrency, financial advice, scams, and deceptive practices.\n      2. Pay special attention to policies on \"cryptophishing,\" \"exaggerated promises,\"\n         and \"get rich quick\" schemes.\n      3. Summarize these rules into a concise, actionable checklist.\n      4. Conduct your search and formulate the checklist in "

/-- Text of the research task's f-string description after the
`{video_language}` substitution point. -/
def researchDescSuf : String := ".\n      "

/-- Task 1 of `create_crew` (`research_task`): its description is an
f-string substituting `video_language`; its `expected_output` is a plain
(non-f) string, so the braces in it are literal; no `context` argument. -/
def research_task (video_language : String) : CrewTask :=
  { description := researchDescPre ++ video_language ++ researchDescSuf,
    expected_output := "A concise checklist of the top 5-7 YouTube policy\n      red flags for a crypto video, written in {video_language}.",
    agent := guideline_expert,
    context := [] }

/-- Text of the analysis task's f-string description before the
`{video_language}` substitution point. -/
def analysisDescPre : String := "\n      Using the policy checklist from the expert, analyze the following\n      video transcript (which is in "

/-- Text of the analysis task's f-string description between the
`{video_language}` and `{video_transcript}` substitution points. -/
def analysisDescMid : String := ").\n\n      Scan the entire transcript for any text that matches the red flags.\n      This includes:\n      - Any \"guarantees\" of profit or \"get rich quick\" promises.\n      - Any requests for users to send cryptocurrency or share wallet details (cryptophishing).\n      - Any links to unverified exchanges or platforms without a proper disclaimer.\n      - Any hype or exaggerated claims about a coin or project without\n        clear disclaimers that this is not financial advice.\n\n      Transcript to Analyze:\n      ---\n      "

/-- Text of the analysis task's f-string description after the
`{video_transcript}` substitution point. -/
def analysisDescSuf : String := "\n      ---\n      "

/-- Text of the analysis task's `expected_output` (a plain string, braces
literal) before the overall-risk line. -/
def analysisExpectedPre : String := "A detailed compliance report in {video_language}.\n      The report must be in Markdown format and include:\n      1.  **"

/-- The overall-risk line of the analysis task's `expected_output`. -/
def analysisExpectedRisk : String := "Overall Risk Assessment:** (Low, Medium, or High)"

/-- Text of the analysis task's `expected_output` after the overall-risk
line. -/
def analysisExpectedSuf : String := "\n      2.  **Potential Issues Found:**\n          - **Timestamp/Quote:** (Quote the exact problematic text. If timestamps aren't available, just use the quote.)\n          - **Potential Policy Violation:** (e.g., \"Spam and Deceptive Practices: Exaggerated Promises\")\n          - **Risk:** (Low/Medium/High)\n          - **Suggestion:** (e.g., \"Add a clear 'This is not financial advice' disclaimer here.\")\n      3.  **Final Summary:** A brief conclusion of the findings.\n\n      If no issues are found, state \"No significant policy risks detected.\"\n      "

/-- Task 2 of `create_crew` (`analysis_task`): its description is an
f-string substituting `video_language` and `video_transcript`; its
`expected_output` is a plain string; `context=[research_task]`, recorded
here as position 0 in the crew's task list. -/
def analysis_task (video_transcript video_language : String) : CrewTask :=
  { description := analysisDescPre ++ video_language ++ analysisDescMid ++ video_transcript ++ analysisDescSuf,
    expected_output := analysisExpectedPre ++ analysisExpectedRisk ++ analysisExpectedSuf,
    agent := video_analyzer,
    context := [0] }

/-- A crewai crew as constructed at the end of `create_crew`. -/
structure Crew where
  agents : List CrewAgent
  tasks : List CrewTask
  process : CrewProcess
  verbose : Nat
deriving DecidableEq, Repr

/-- The `create_crew` function of `youtube_analyzer_crew.py`: two agents,
the research task followed by the analysis task, sequential process. -/
def create_crew (video_transcript video_language : String) : Crew :=
  { agents := [guideline_expert, video_analyzer],
    tasks := [research_task video_language,
              analysis_task video_transcript video_language],
    process := CrewProcess.sequential,
    verbose := 2 }

/-! ## Execution semantics of the crew

The repository calls `analyzer_crew.kickoff()`; the body of `kickoff` lives
in the third-party crewai library, not in the repository's files.  The run
semantics below is therefore modelled from the specification's run
contract. -/

/-- A record of one executed stage: the task it ran, the composed inference
request that was sent, and the text that came back. -/
structure StageRecord where
  task : CrewTask
  input : String
  output : String
deriving DecidableEq, Repr

/-- Modelled from the spec: context resolution for one stage — the
concatenation of the textual outputs of all declared upstream stages
(`Crew.kickoff` is library code absent from the sources). -/
def contextText (outputs : List String) (ids : List Nat) : String :=
  String.join (ids.map fun i => outputs.getD i "")

/-- Modelled from the spec: one stage's composed inference request — actor
persona, then task description, then resolved upstream context
(`Crew.kickoff` is library code absent from the sources). -/
def composeInput (outputs : List String) (tk : CrewTask) : String :=
  tk.agent.role ++ "\n" ++ tk.agent.goal ++ "\n" ++ tk.agent.backstory ++ "\n"
    ++ tk.description ++ "\n" ++ contextText outputs tk.context

/-- Modelled from the spec: sequential stage execution — stages run once
each in declared order, every stage's output is recorded and made available
to later stages (`Crew.kickoff` is library code absent from the sources).
The inference provider is an oracle from composed request to reply. -/
def kickoffAux (oracle : String → String) : List CrewTask → List String → List StageRecord
  | [], _ => []
  | tk :: rest, outs =>
    let inp := composeInput outs tk
    let out := oracle inp
    { task := tk, input := inp, output := out } :: kickoffAux oracle rest (outs ++ [out])

/-- Modelled from the spec: the full execution trace of `Crew.kickoff` on a
crew's declared task list, starting with no recorded outputs. -/
def kickoffTrace (oracle : String → String) (c : Crew) : List StageRecord :=
  kickoffAux oracle c.tasks []

/-- Modelled from the spec: `Crew.kickoff` returns the final stage's
recorded text as the report. -/
def kickoffReport (oracle : String → String) (c : Crew) : String :=
  ((kickoffTrace oracle c).getLast?.map StageRecord.output).getD ""

/-! ## Module-level credential check of `youtube_analyzer_crew.py` -/

/-- Python truthiness of an `os.getenv` result: `None` and the empty string
are falsy, any other string is truthy. -/
def pyTruthy : Option String → Bool
  | none => false
  | some s => !s.isEmpty

/-- The module-level key check of `youtube_analyzer_crew.py` (lines 13-16):
`EnvironmentError` when `os.getenv` yields nothing truthy for
`GOOGLE_API_KEY`, then the same for `SERPER_API_KEY`. -/
def checkApiKeys (env : String → Option String) : Except String Unit :=
  if !pyTruthy (env "GOOGLE_API_KEY") then
    Except.error "GOOGLE_API_KEY environment variable not set."
  else if !pyTruthy (env "SERPER_API_KEY") then
    Except.error "SERPER_API_KEY environment variable not set. Get one from serper.dev"
  else Except.ok ()

/-- Building the pipeline: importing `youtube_analyzer_crew` runs the
module-level key check before anything else; only if it passes can
`create_crew` produce a crew.  No crew value exists on the error path, so
no stage can execute and no inference request can be composed. -/
def buildCrewModule (env : String → Option String)
    (video_transcript video_language : String) : Except String Crew :=
  (checkApiKeys env).map fun _ => create_crew video_transcript video_language

/-! ## The Gemini file-processing wait loop of `app.py`

`transcribe_video_with_gemini` uploads the file and then runs
`while audio_file.state.name == "PROCESSING": time.sleep(2)`.  The local
variable `audio_file` is never reassigned and the file object is never
re-fetched inside the loop, so every iteration observes the same
upload-time snapshot of the state. -/

/-- One polling loop, fuelled: `observedState i` is what iteration `i`'s
test of `audio_file.state.name` sees; the loop returns `true` when the test
leaves `"PROCESSING"` within the given fuel, `false` when the fuel runs out
with the loop still spinning. -/
def pollLoop (observedState : Nat → String) (i : Nat) : Nat → Bool
  | 0 => false
  | fuel + 1 =>
    if observedState i = "PROCESSING" then pollLoop observedState (i + 1) fuel
    else true

/-- The wait loop as written in `app.py`: because `audio_file` is never
refreshed, every iteration observes the upload-time snapshot
`initialStateName`, whatever the provider-side state has become. -/
def waitForProcessing (initialStateName : String) (fuel : Nat) : Bool :=
  pollLoop (fun _ => initialStateName) 0 fuel

/-! ## The analyze action of `main` in `app.py`

The model follows the branch structure of lines 145-200: the
neither-input guard with `st.stop()`, `tempfile.mkdtemp()`, the
URL-versus-upload `if`/`elif`, the `if file_path and os.path.exists(...)`
guard, the `if transcription:` guard around `create_crew`/`kickoff`, and
the `finally` block that removes the scratch directory. -/

/-- Observable steps of one analyze run. -/
inductive Event where
  | errorShown
  | stopped
  | madeTempDir
  | downloadCalled
  | wroteUpload
  | transcribeCalled
  | remoteUploaded
  | createCrewCalled
  | kickoffCalled
  | reportRendered
  | removedTempDir
deriving DecidableEq, Repr

/-- Outcome of `transcribe_video_with_gemini`: the upload call raised, the
uploaded file's state was `"FAILED"`, `generate_content` raised, or a
transcript came back. -/
inductive TranscribeOutcome where
  | uploadError
  | processingFailed
  | generateError
  | ok (transcript : String)
deriving DecidableEq, Repr

/-- Events of `transcribe_video_with_gemini` by outcome: the upload is
reached first; every failure path calls `st.error`; a remote artifact
exists from the moment `genai.upload_file` returns. -/
def transcribeEvents : TranscribeOutcome → List Event
  | TranscribeOutcome.uploadError => [Event.transcribeCalled, Event.errorShown]
  | TranscribeOutcome.processingFailed =>
      [Event.transcribeCalled, Event.remoteUploaded, Event.errorShown]
  | TranscribeOutcome.generateError =>
      [Event.transcribeCalled, Event.remoteUploaded, Event.errorShown]
  | TranscribeOutcome.ok _ => [Event.transcribeCalled, Event.remoteUploaded]

/-- The transcript `transcribe_video_with_gemini` returns: `none` on every
failure path (the function returns `None, None`). -/
def transcriptOf : TranscribeOutcome → Option String
  | TranscribeOutcome.ok t => some t
  | _ => none

/-- What is left at the end of one analyze run. -/
structure RunResult where
  events : List Event
  tempDirAbsent : Bool
  remoteArtifactRemains : Bool
  raised : Bool
deriving DecidableEq, Repr

/-- The analyze action of `main` (lines 145-200 of `app.py`).  Inputs:
the URL text field (empty string when not filled in), the optional
uploaded file's name, the result of `download_audio_from_youtube`
(`none` on failure — that function catches its own errors), the outcome
of `transcribe_video_with_gemini`, and the result of `kickoff` (`none`
models an exception escaping it).  The `finally` block runs on every path
that created the scratch directory; nothing ever deletes the remote
artifact, so it remains exactly when an upload happened. -/
def runMain (url : String) (uploaded : Option String)
    (downloadResult : Option String) (tOutcome : TranscribeOutcome)
    (kickoffResult : Option String) : RunResult :=
  if url = "" ∧ uploaded = none then
    { events := [Event.errorShown, Event.stopped], tempDirAbsent := true,
      remoteArtifactRemains := false, raised := false }
  else
    let acquireEvents : List Event :=
      if url = "" then [Event.wroteUpload] else [Event.downloadCalled]
    let filePath : Option String :=
      if url = "" then uploaded else downloadResult
    let body : List Event × Bool :=
      match filePath with
      | none => ([], false)
      | some _ =>
        match transcriptOf tOutcome with
        | none => (transcribeEvents tOutcome, false)
        | some t =>
          if t = "" then
            (transcribeEvents tOutcome ++ [Event.errorShown], false)
          else
            match kickoffResult with
            | some _ =>
              (transcribeEvents tOutcome ++ [Event.createCrewCalled,
                Event.kickoffCalled, Event.reportRendered], false)
            | none =>
              (transcribeEvents tOutcome ++ [Event.createCrewCalled,
                Event.kickoffCalled], true)
    let events := [Event.madeTempDir] ++ acquireEvents ++ body.1
      ++ [Event.removedTempDir]
    { events := events, tempDirAbsent := true,
      remoteArtifactRemains := events.contains Event.remoteUploaded,
      raised := body.2 }

/-! ## Widget configuration of `main` in `app.py` -/

/-- The `type=[...]` argument of `st.file_uploader` (line 133). -/
def uploadFileTypes : List String := ["mp4", "mp3", "wav", "m4a", "flac"]

/-- Whether the file uploader accepts a file with the given extension. -/
def uploaderAccepts (ext : String) : Bool := uploadFileTypes.contains ext

/-- The options of the `st.selectbox` language selector (lines 135-138). -/
def languageOptions : List String :=
  ["English", "Spanish", "German", "Portuguese", "French", "Arabic"]

/-! ## Claims -/

/-- C7: for every (transcript, language) pair, `create_crew` substitutes
both values into the stage task-description templates — the analysis
task's description contains the transcript verbatim and names the selected
language, and the research task's description names the selected
language. -/
theorem task_descriptions_substitution (t l : String) :
    strContains (analysis_task t l).description t = true ∧
    strContains (analysis_task t l).description l = true ∧
    strContains (research_task l).description l = true := by
  refine ⟨?_, ?_, ?_⟩
  · exact strContains_parts _ (analysisDescPre ++ l ++ analysisDescMid) t
      analysisDescSuf (by simp [analysis_task, List.append_assoc])
  · exact strContains_parts _ analysisDescPre l
      (analysisDescMid ++ t ++ analysisDescSuf)
      (by simp [analysis_task, List.append_assoc])
  · exact strContains_parts _ researchDescPre l researchDescSuf
      (by simp [research_task])

/-- C1: for every (transcript, language) pair and every inference oracle,
the crew built by `create_crew` executes its two declared stages strictly
sequentially in declared order — the policy-research task first, then the
content-analysis task, each exactly once — and the analysis stage's
composed input contains the verbatim textual output of the research stage,
its sole declared upstream dependency. -/
theorem crew_sequential_stage_order (t l : String) (oracle : String → String) :
    (create_crew t l).process = CrewProcess.sequential ∧
    ∃ r0 r1 : StageRecord,
      kickoffTrace oracle (create_crew t l) = [r0, r1] ∧
      r0.task = research_task l ∧
      r1.task = analysis_task t l ∧
      r1.task.context = [0] ∧
      strContains r1.input r0.output = true := by
  refine ⟨rfl, ?_⟩
  refine ⟨_, _, rfl, rfl, rfl, rfl, ?_⟩
  exact strContains_parts _
    (video_analyzer.role ++ "\n" ++ video_analyzer.goal ++ "\n"
      ++ video_analyzer.backstory ++ "\n" ++ (analysis_task t l).description
      ++ "\n")
    (oracle (composeInput [] (research_task l))) ""
    (by simp [composeInput, contextText, String.join, analysis_task,
          List.append_assoc])

/-- C4 as stated by the claim: every run of the pipeline yields a report
that is non-empty and contains one of the risk tokens Clear, Low, Medium,
High. -/
def C4Claim : Prop :=
  ∀ (t l : String) (oracle : String → String),
    kickoffReport oracle (create_crew t l) ≠ "" ∧
    (strContains (kickoffReport oracle (create_crew t l)) "Clear" = true ∨
     strContains (kickoffReport oracle (create_crew t l)) "Low" = true ∨
     strContains (kickoffReport oracle (create_crew t l)) "Medium" = true ∨
     strContains (kickoffReport oracle (create_crew t l)) "High" = true)

/-- C4 counterexample: with an inference provider whose reply is always the
empty string, the pipeline's report is empty — the code never checks or
enforces the report's content, so the claimed property fails. -/
theorem report_risk_claim_cex : ¬ C4Claim := fun h =>
  (h "hello" "English" fun _ => "").1 rfl

set_option maxRecDepth 20000 in
/-- C4 (amended): for every (transcript, language) pair and every oracle,
the report is exactly the inference provider's reply to the analysis
stage's composed request — nothing in the code constrains its text — and
the analysis task's expected-output hint (a generation hint, not an
enforced contract) requests an overall risk token drawn from Low, Medium,
High; the token Clear is not among the requested ones. -/
theorem report_content_amended (t l : String) (oracle : String → String) :
    kickoffReport oracle (create_crew t l) =
      oracle (composeInput [oracle (composeInput [] (research_task l))]
        (analysis_task t l)) ∧
    strContains (analysis_task t l).expected_output
      "Overall Risk Assessment:** (Low, Medium, or High)" = true ∧
    strContains (analysis_task t l).expected_output "Clear" = false := by
  refine ⟨rfl, ?_, ?_⟩
  · exact strContains_parts _ analysisExpectedPre analysisExpectedRisk
      analysisExpectedSuf (by simp [analysis_task])
  · show strContains
      (analysisExpectedPre ++ analysisExpectedRisk ++ analysisExpectedSuf)
      "Clear" = false
    decide

/-- C2 as stated by the claim: absence of either key from the environment
makes the build fail, and presence of both keys suffices for it not to
fail. -/
def C2Claim : Prop :=
  (∀ (env : String → Option String) (t l : String),
      (env "GOOGLE_API_KEY" = none ∨ env "SERPER_API_KEY" = none) →
      ∃ msg, buildCrewModule env t l = Except.error msg) ∧
  (∀ (env : String → Option String) (t l : String),
      env "GOOGLE_API_KEY" ≠ none → env "SERPER_API_KEY" ≠ none →
      ∃ c, buildCrewModule env t l = Except.ok c)

/-- C2 counterexample: in an environment where both keys are present but
set to the empty string, the module-level check still raises the
EnvironmentError — Python truthiness treats an empty value like an unset
one — so presence of both keys does not preclude the configuration
error. -/
theorem credential_claim_cex : ¬ C2Claim := by
  intro h
  obtain ⟨c, hc⟩ := h.2 (fun _ => some "") "t" "English" (by simp) (by simp)
  rw [show buildCrewModule (fun _ => some "") "t" "English"
      = Except.error "GOOGLE_API_KEY environment variable not set." from rfl] at hc
  exact Except.noConfusion hc

/-- Helper: the empty string is `isEmpty`. -/
theorem isEmpty_nil : "".isEmpty = true := rfl

/-- Helper: a string different from the empty one is not `isEmpty`. -/
theorem isEmpty_false_of_ne {s : String} (h : s ≠ "") : s.isEmpty = false := by
  cases hx : s.isEmpty
  · rfl
  · exact absurd ((String.isEmpty_iff s).mp hx) h

/-- C2 (amended): if either key is absent from the environment or present
with an empty value, building fails with the configuration error — and no
crew value exists on that path, so no stage can execute and no inference
request is composed; when both keys are present with non-empty values, no
such error is raised and the crew is built. -/
theorem credential_check_amended :
    (∀ (env : String → Option String) (t l : String),
        (env "GOOGLE_API_KEY" = none ∨ env "GOOGLE_API_KEY" = some "" ∨
         env "SERPER_API_KEY" = none ∨ env "SERPER_API_KEY" = some "") →
        ∃ msg, buildCrewModule env t l = Except.error msg) ∧
    (∀ (env : String → Option String) (t l : String),
        (∃ sg, env "GOOGLE_API_KEY" = some sg ∧ sg ≠ "") →
        (∃ ss, env "SERPER_API_KEY" = some ss ∧ ss ≠ "") →
        buildCrewModule env t l = Except.ok (create_crew t l)) := by
  constructor
  · intro env t l h
    by_cases hg : pyTruthy (env "GOOGLE_API_KEY") = true
    · have hs : pyTruthy (env "SERPER_API_KEY") = false := by
        rcases h with h | h | h | h <;>
          simp [pyTruthy, h, isEmpty_nil] at hg ⊢
      exact ⟨"SERPER_API_KEY environment variable not set. Get one from serper.dev",
        by simp [buildCrewModule, checkApiKeys, hg, hs, Except.map]⟩
    · have hg' : pyTruthy (env "GOOGLE_API_KEY") = false := by
        cases hb : pyTruthy (env "GOOGLE_API_KEY") <;> simp_all
      exact ⟨"GOOGLE_API_KEY environment variable not set.",
        by simp [buildCrewModule, checkApiKeys, hg', Except.map]⟩
  · rintro env t l ⟨sg, hsg, hsgne⟩ ⟨ss, hss, hssne⟩
    have h1 : pyTruthy (env "GOOGLE_API_KEY") = true := by
      simp [pyTruthy, hsg, isEmpty_false_of_ne hsgne]
    have h2 : pyTruthy (env "SERPER_API_KEY") = true := by
      simp [pyTruthy, hss, isEmpty_false_of_ne hssne]
    simp [buildCrewModule, checkApiKeys, h1, h2, Except.map]

/-- C2 witness: in the empty environment the build fails with the
configuration error. -/
theorem credential_check_amended_witness :
    ∃ msg, buildCrewModule (fun _ => none) "t" "English" = Except.error msg :=
  credential_check_amended.1 (fun _ => none) "t" "English" (Or.inl rfl)

/-- C6 (the code at the failing input): when the upload-time snapshot of
the file state is PROCESSING, the wait loop of
`transcribe_video_with_gemini` never exits, however many iterations it is
given — the loop re-tests the never-reassigned `audio_file` object, so a
provider-side resolution to ready or failed is never observed. -/
theorem poll_loop_never_exits_processing (fuel : Nat) :
    waitForProcessing "PROCESSING" fuel = false := by
  have h : ∀ f i, pollLoop (fun _ => "PROCESSING") i f = false := by
    intro f
    induction f with
    | zero => intro i; rfl
    | succ n ih => intro i; simp [pollLoop, ih]
  exact h fuel 0

/-- C9 as stated by the claim: the uploader accepts exactly the seven
extensions mp4, mp3, wav, m4a, flac, mov, webm, and the language selector
offers the six listed languages. -/
def C9Claim : Prop :=
  (∀ e : String, uploaderAccepts e = true ↔
      e ∈ (["mp4", "mp3", "wav", "m4a", "flac", "mov", "webm"] : List String)) ∧
  languageOptions = ["English", "Spanish", "German", "Portuguese", "French", "Arabic"]

/-- C9 counterexample: the uploader's `type` list does not contain mov
(nor webm), so a mov file, accepted according to the claim, is rejected by
the widget configuration. -/
theorem uploader_types_claim_cex : ¬ C9Claim := fun h =>
  absurd ((h.1 "mov").mpr (by decide)) (by decide)

/-- C9 (amended): the uploader accepts a file exactly when its extension is
one of mp4, mp3, wav, m4a, flac — mov and webm are not accepted — and the
language selector offers exactly English, Spanish, German, Portuguese,
French, Arabic. -/
theorem uploader_types_amended :
    (∀ e : String, uploaderAccepts e = true ↔
        (e = "mp4" ∨ e = "mp3" ∨ e = "wav" ∨ e = "m4a" ∨ e = "flac")) ∧
    uploaderAccepts "mov" = false ∧ uploaderAccepts "webm" = false ∧
    languageOptions = ["English", "Spanish", "German", "Portuguese", "French", "Arabic"] := by
  refine ⟨?_, by decide, by decide, rfl⟩
  intro e
  simp [uploaderAccepts, uploadFileTypes, List.contains_cons,
    Bool.or_eq_true, beq_iff_eq]

/-- C3: if transcription fails (no transcript comes back) or the transcript
is empty, report generation is never attempted — `create_crew` and
`kickoff` are not invoked and no report is rendered — and whenever the
transcription step was reached, the failure is reported to the user. -/
theorem no_analysis_without_transcript (url : String) (uploaded : Option String)
    (dl : Option String) (tc : TranscribeOutcome) (k : Option String)
    (h : transcriptOf tc = none ∨ transcriptOf tc = some "") :
    Event.createCrewCalled ∉ (runMain url uploaded dl tc k).events ∧
    Event.kickoffCalled ∉ (runMain url uploaded dl tc k).events ∧
    Event.reportRendered ∉ (runMain url uploaded dl tc k).events ∧
    (Event.transcribeCalled ∈ (runMain url uploaded dl tc k).events →
      Event.errorShown ∈ (runMain url uploaded dl tc k).events) := by
  rcases h with h | h
  · have hne : Event.createCrewCalled ∉ transcribeEvents tc ∧
        Event.kickoffCalled ∉ transcribeEvents tc ∧
        Event.reportRendered ∉ transcribeEvents tc ∧
        Event.errorShown ∈ transcribeEvents tc := by
      cases tc <;> simp [transcribeEvents, transcriptOf] at h ⊢
    by_cases hurl : url = "" <;>
      rcases uploaded with _ | uf <;> rcases dl with _ | df <;>
        simp [runMain, hurl, h, hne.1, hne.2.1, hne.2.2.1, hne.2.2.2]
  · cases tc with
    | uploadError => exact absurd h (by simp [transcriptOf])
    | processingFailed => exact absurd h (by simp [transcriptOf])
    | generateError => exact absurd h (by simp [transcriptOf])
    | ok t =>
        obtain rfl : t = "" := by simpa [transcriptOf] using h
        by_cases hurl : url = "" <;>
          rcases uploaded with _ | uf <;> rcases dl with _ | df <;>
            simp [runMain, hurl, transcribeEvents, transcriptOf]

/-- C3 witness: on a run whose file processing fails remotely, no crew is
created, no kickoff happens, no report is rendered, and an error is
shown. -/
theorem no_analysis_without_transcript_witness :
    Event.createCrewCalled ∉
      (runMain "u" none (some "f.mp3") TranscribeOutcome.processingFailed none).events ∧
    Event.kickoffCalled ∉
      (runMain "u" none (some "f.mp3") TranscribeOutcome.processingFailed none).events ∧
    Event.reportRendered ∉
      (runMain "u" none (some "f.mp3") TranscribeOutcome.processingFailed none).events ∧
    (Event.transcribeCalled ∈
        (runMain "u" none (some "f.mp3") TranscribeOutcome.processingFailed none).events →
      Event.errorShown ∈
        (runMain "u" none (some "f.mp3") TranscribeOutcome.processingFailed none).events) :=
  no_analysis_without_transcript "u" none (some "f.mp3")
    TranscribeOutcome.processingFailed none (Or.inl rfl)

/-- C5: on every run of the analyze action, the scratch directory is absent
at the end, and every run that created it also removed it — the `finally`
block runs on success, on failed download, on failed transcription and on
an escaping exception alike. -/
theorem scratch_dir_cleanup (url : String) (uploaded : Option String)
    (dl : Option String) (tc : TranscribeOutcome) (k : Option String) :
    (runMain url uploaded dl tc k).tempDirAbsent = true ∧
    (Event.madeTempDir ∈ (runMain url uploaded dl tc k).events →
      Event.removedTempDir ∈ (runMain url uploaded dl tc k).events) := by
  constructor
  · unfold runMain; split <;> rfl
  · unfold runMain; split
    · intro hmem; simp at hmem
    · intro _; simp

/-- C5 witness: a concrete successful run created the scratch directory,
removed it again, and ends with it absent. -/
theorem scratch_dir_cleanup_witness :
    (runMain "u" none (some "f.mp3") (TranscribeOutcome.ok "hi") (some "report")).tempDirAbsent = true ∧
    Event.removedTempDir ∈
      (runMain "u" none (some "f.mp3") (TranscribeOutcome.ok "hi") (some "report")).events :=
  ⟨(scratch_dir_cleanup "u" none (some "f.mp3") (TranscribeOutcome.ok "hi") (some "report")).1,
   (scratch_dir_cleanup "u" none (some "f.mp3") (TranscribeOutcome.ok "hi") (some "report")).2
     (by decide)⟩

/-- C8 as stated by the claim: after every run, no remote-side artifact
remains. -/
def C8Claim : Prop :=
  ∀ (url : String) (uploaded : Option String) (dl : Option String)
    (tc : TranscribeOutcome) (k : Option String),
    (runMain url uploaded dl tc k).remoteArtifactRemains = false

/-- C8 counterexample: on a fully successful run the uploaded audio file is
still registered with the provider when the run ends — `main` only removes
the local scratch directory, and its final comment notes the Gemini file
reference is not deleted. -/
theorem remote_artifact_claim_cex : ¬ C8Claim := fun h =>
  absurd (h "u" none (some "f.mp3") (TranscribeOutcome.ok "hi") (some "report"))
    (by decide)

/-- C8 (amended): the shell never deletes the remote artifact: whenever the
upload step succeeded (a remote upload event happened), the artifact is
still present when the run ends. -/
theorem remote_artifact_remains_amended (url : String) (uploaded : Option String)
    (dl : Option String) (tc : TranscribeOutcome) (k : Option String)
    (h : Event.remoteUploaded ∈ (runMain url uploaded dl tc k).events) :
    (runMain url uploaded dl tc k).remoteArtifactRemains = true := by
  unfold runMain at h ⊢
  by_cases hcond : url = "" ∧ uploaded = none
  · rw [if_pos hcond] at h; simp at h
  · rw [if_neg hcond] at h ⊢
    exact List.elem_eq_true_of_mem h

/-- C8 witness: a run whose remote processing failed still uploaded the
file, and the artifact remains at the end. -/
theorem remote_artifact_remains_amended_witness :
    (runMain "v" none (some "g.mp3") TranscribeOutcome.generateError none).remoteArtifactRemains = true :=
  remote_artifact_remains_amended "v" none (some "g.mp3")
    TranscribeOutcome.generateError none (by decide)

/-- C10: when a URL is supplied, only the URL branch executes — the
uploaded file is never written to the scratch directory while the download
is invoked — and when neither input is supplied the run stops with an
error before the scratch directory is created. -/
theorem url_branch_priority (url : String) (uploaded : Option String)
    (dl : Option String) (tc : TranscribeOutcome) (k : Option String) :
    (url ≠ "" →
      Event.wroteUpload ∉ (runMain url uploaded dl tc k).events ∧
      Event.downloadCalled ∈ (runMain url uploaded dl tc k).events) ∧
    (url = "" → uploaded = none →
      (runMain url uploaded dl tc k).events = [Event.errorShown, Event.stopped] ∧
      Event.madeTempDir ∉ (runMain url uploaded dl tc k).events) := by
  constructor
  · intro hurl
    rcases dl with _ | df <;> cases tc <;> rcases k with _ | kr <;>
      simp [runMain, hurl, transcribeEvents, transcriptOf] <;>
      split <;> simp
  · intro h1 h2
    subst h1; subst h2
    simp [runMain]

/-- C10 witness: with both a URL and an uploaded file supplied, the
uploaded file is never written; with neither supplied, the run stops with
an error and no scratch directory event. -/
theorem url_branch_priority_witness :
    Event.wroteUpload ∉
      (runMain "u" (some "f.mp4") (some "p.mp3") (TranscribeOutcome.ok "t") (some "r")).events ∧
    (runMain "" none (some "p.mp3") (TranscribeOutcome.ok "t") (some "r")).events
      = [Event.errorShown, Event.stopped] :=
  ⟨((url_branch_priority "u" (some "f.mp4") (some "p.mp3") (TranscribeOutcome.ok "t")
      (some "r")).1 (by decide)).1,
   ((url_branch_priority "" none (some "p.mp3") (TranscribeOutcome.ok "t")
      (some "r")).2 rfl rfl).1⟩

end ACC
